import Mathlib

/-!
Shallow embedding of the MarceloClaro/skin-cancer-classifier repository:
the tRPC server procedures in src/server/routers.ts (chat.sendMessage,
skinClassifier.classify, skinClassifier.classifyBinary, model.getInfo),
the retrain-eligibility policy computed by the admin dashboard
(src/client/src/pages/AdminDataset.tsx), and a dataset-store model for the
incremental-dataset backend that the snapshot only documents
(DOCUMENTATION.md).  External effects (fetch, subprocess execution, the
filesystem, the database) are modelled by explicit environment records
describing the outcome each effectful call observes; each procedure is a
total function from its environment to its result, with thrown JS errors
embedded as `Except.error` carrying the message the code builds.
-/

set_option autoImplicit false

namespace SkinClassifier

/-! ### Retrain-eligibility policy (src/client/src/pages/AdminDataset.tsx) -/

/-- AdminDataset.tsx line 112: `const canRetrain = totalImages >= 2` — the
eligibility gate for triggering a retrain, over the total image count. -/
def canRetrain (totalImages : Nat) : Bool :=
  decide (2 ≤ totalImages)

/-- AdminDataset.tsx line 113: the absolute difference
`Math.abs(BENIGNO - MALIGNO)` of the two class counts (JS number
subtraction embedded over `Int`). -/
def classImbalance (benigno maligno : Nat) : Nat :=
  ((benigno : Int) - (maligno : Int)).natAbs

/-- AdminDataset.tsx line 113: `isBalanced = Math.abs(...) <= 5`; synthetic
rebalancing is recommended to the operator exactly when this is false
(the dashboard shows the synthetic-images notice when `!isBalanced`). -/
def isBalanced (benigno maligno : Nat) : Bool :=
  decide (classImbalance benigno maligno ≤ 5)

/-! ### chat.sendMessage (src/server/routers.ts lines 47-181) -/

/-- The shape of a Gemini generateContent response body at the level
routers.ts inspects it: `candidates[0].content.parts[0].text`, with
`finishReason` consulted when content is missing. -/
inductive GeminiBody where
  | noCandidates : GeminiBody
  | noContent : Option String → GeminiBody
  | text : String → GeminiBody
deriving DecidableEq

/-- Outcome of one `fetch` to the Gemini endpoint: the transport success
flag `response.ok`, the numeric status, and the parsed body. -/
structure FetchResult where
  ok : Bool
  status : Nat
  body : GeminiBody
deriving DecidableEq

/-- External outcomes one chat.sendMessage call can observe: the fetch with
the primary API key, the fetch with the fallback API key, and the outcome
of the database write (`none` = success, `some msg` = rejection). -/
structure ChatEnv where
  primary : FetchResult
  fallback : FetchResult
  save : Option String
deriving DecidableEq

/-- The outer catch of chat.sendMessage (routers.ts lines 176-180) rewraps
every thrown error message. -/
def wrapChatError (msg : String) : String :=
  "Erro ao processar sua mensagem: " ++ msg

/-- Body handling of routers.ts lines 142-175, applied to the response whose
transport status was accepted: missing candidates throw, missing content
throws (with a dedicated message on MAX_TOKENS), otherwise the text is
returned after the conversation is saved (a save failure throws). -/
def handleGeminiBody (body : GeminiBody) (save : Option String) : Except String String :=
  match body with
  | .noCandidates => .error "Formato de resposta inválido da API Gemini"
  | .noContent finishReason =>
      if finishReason = some "MAX_TOKENS" then
        .error "A resposta foi muito longa. Por favor, faça uma pergunta mais específica."
      else
        .error "A API não retornou conteúdo. Tente novamente."
  | .text t =>
      match save with
      | some e => .error e
      | none => .ok t

/-- chat.sendMessage (routers.ts lines 47-181): fetch with the primary key;
if `response.ok` is false, fetch once more with the fallback key; if the
resulting response is still not ok, throw a transport error; otherwise
inspect the body.  Every throw lands in the outer catch, which rethrows
with the wrapped message. -/
def sendMessage (env : ChatEnv) : Except String String :=
  let resp := if env.primary.ok then env.primary else env.fallback
  let inner : Except String String :=
    if resp.ok then
      handleGeminiBody resp.body env.save
    else
      .error ("Erro ao comunicar com a API Gemini: " ++ toString resp.status)
  match inner with
  | .ok r => .ok r
  | .error m => .error (wrapChatError m)

/-- Environment in which both the primary-key and the fallback-key fetches
fail at the transport level (HTTP 403). -/
def chatEnvAllFail : ChatEnv :=
  { primary := ⟨false, 403, .noCandidates⟩
  , fallback := ⟨false, 403, .noCandidates⟩
  , save := none }

/-- Environment in which the primary key returns HTTP 200 with a malformed
body (no candidates) while the fallback key would return a well-formed
narrative. -/
def chatEnvMalformedPrimary : ChatEnv :=
  { primary := ⟨true, 200, .noCandidates⟩
  , fallback := ⟨true, 200, .text "resposta válida"⟩
  , save := none }

/-! ### skinClassifier.classify (src/server/routers.ts lines 305-413) -/

/-- The fields of the classification JSON the route and its client consume:
a class label and a confidence value (embedded as a percentage). -/
structure ClassificationData where
  classLabel : String
  confidencePct : Nat
deriving DecidableEq

/-- The diagnosis object shape built by the route and by the diagnosis
subprocess: a success flag, an optional error text, and the narrative. -/
structure DiagnosisData where
  success : Bool
  errorText : Option String
  diagnosis : String
deriving DecidableEq

/-- The fallback diagnosis object routers.ts lines 386-390 builds when the
diagnosis subprocess fails. -/
def degradedDiagnosis : DiagnosisData :=
  { success := false
  , errorText := some "Erro ao gerar diagnóstico"
  , diagnosis := "Diagnóstico não disponível" }

/-- External outcomes one skinClassifier.classify call can observe:
whether writing the temp image rejects, the combined outcome of running and
parsing the inference script (a rejection or parse failure carries the
thrown message), the outcome of the Grad-CAM script, the request flag,
whether writing the per-request diagnosis script rejects (routers.ts line
378, which sits outside the inner try at line 380), and the combined
outcome of running and parsing the diagnosis script. -/
structure ClassifyEnv where
  writeImage : Option String
  classifyStep : Except String ClassificationData
  gradcamStep : Except String String
  generateDiagnosis : Bool
  writeDiagnosisScript : Option String
  diagnosisStep : Except String DiagnosisData

/-- The successful response shape of skinClassifier.classify
(routers.ts lines 402-407). -/
structure ClassifyResponse where
  success : Bool
  classification : ClassificationData
  gradcam : String
  diagnosis : Option DiagnosisData
deriving DecidableEq

/-- skinClassifier.classify (routers.ts lines 305-413): write the temp
image, run and parse the inference script, run the Grad-CAM script, then —
only when requested — write the per-request diagnosis script (line 378,
outside the inner try, so its rejection propagates) and run it inside the
try/catch of lines 380-391, which substitutes the degraded diagnosis
object when the exec or the JSON parse fails.  Any uncaught throw reaches
the outer catch, which rethrows with a wrapped message, so a Grad-CAM
subprocess failure or a diagnosis-script write failure aborts the whole
request. -/
def classify (env : ClassifyEnv) : Except String ClassifyResponse :=
  let inner : Except String ClassifyResponse :=
    match env.writeImage with
    | some e => .error e
    | none =>
        match env.classifyStep with
        | .error e => .error e
        | .ok cls =>
            match env.gradcamStep with
            | .error e => .error e
            | .ok overlay =>
                if env.generateDiagnosis then
                  match env.writeDiagnosisScript with
                  | some e => .error e
                  | none =>
                      let diagnosis : DiagnosisData :=
                        match env.diagnosisStep with
                        | .error _ => degradedDiagnosis
                        | .ok d => d
                      .ok { success := true, classification := cls
                          , gradcam := overlay, diagnosis := some diagnosis }
                else
                  .ok { success := true, classification := cls
                      , gradcam := overlay, diagnosis := none }
  match inner with
  | .ok r => .ok r
  | .error m => .error ("Erro na classificação: " ++ m)

/-- Environment in which the inference subprocess succeeds but the Grad-CAM
subprocess rejects. -/
def classifyEnvGradcamFails : ClassifyEnv :=
  { writeImage := none
  , classifyStep := .ok ⟨"MALIGNO", 82⟩
  , gradcamStep := .error "Command failed: python3 gradcam script"
  , generateDiagnosis := true
  , writeDiagnosisScript := none
  , diagnosisStep := .ok ⟨true, none, "narrativa"⟩ }

/-- Environment in which inference and Grad-CAM succeed, the diagnosis
script is written, but the diagnosis subprocess rejects. -/
def classifyEnvDiagnosisFails : ClassifyEnv :=
  { writeImage := none
  , classifyStep := .ok ⟨"BENIGNO", 91⟩
  , gradcamStep := .ok "data-gradcam-overlay"
  , generateDiagnosis := true
  , writeDiagnosisScript := none
  , diagnosisStep := .error "Command failed: python3 diagnosis script" }

/-- Environment in which inference and Grad-CAM succeed but writing the
per-request diagnosis script rejects (the writeFile at routers.ts line
378, outside the inner try). -/
def classifyEnvDiagnosisWriteFails : ClassifyEnv :=
  { writeImage := none
  , classifyStep := .ok ⟨"BENIGNO", 91⟩
  , gradcamStep := .ok "data-gradcam-overlay"
  , generateDiagnosis := true
  , writeDiagnosisScript := some "ENOSPC: no space left on device, write"
  , diagnosisStep := .ok ⟨true, none, "narrativa"⟩ }

/-! ### skinClassifier.classifyBinary (src/server/routers.ts lines 204-304) -/

/-- The JSON object the Python wrapper prints on stdout, at the level
classifyBinary inspects it: a success flag, the error message read when
success is false, and the classification / gradcam / diagnosis payloads. -/
structure WrapperResult where
  success : Bool
  errorMessage : String
  classification : ClassificationData
  gradcam : Option String
  diagnosis : Option DiagnosisData
deriving DecidableEq

/-- External outcomes one classifyBinary call can observe: whether writing
the temp image rejects, the outcome of the wrapper subprocess (a rejection
message, or stdout whose JSON parse yields `none` on failure), the message
of a JSON parse error, and whether the unlink of the temp file succeeds. -/
structure BinaryEnv where
  writeImage : Option String
  execStep : Except String (Option WrapperResult)
  parseErrMsg : String
  unlinkOk : Bool

/-- Whether the temporary image file exists after the call: the observable
filesystem footprint of classifyBinary. -/
structure TmpState where
  tempFileExists : Bool
deriving DecidableEq

/-- One `unlink(tempImagePath).catch(noop)` call: a deletion whose own
failure is swallowed and leaves the file in place. -/
def tryUnlink (ok : Bool) (s : TmpState) : TmpState :=
  if ok then { tempFileExists := false } else s

/-- The successful response shape of classifyBinary
(routers.ts lines 275-284, metadata omitted). -/
structure BinaryResponse where
  success : Bool
  classification : ClassificationData
  gradcam : Option String
  diagnosis : Option DiagnosisData
deriving DecidableEq

/-- skinClassifier.classifyBinary (routers.ts lines 204-304): write the
temp image, run the wrapper subprocess, parse its stdout, check the
success flag, and return; the success path unlinks the temp file before
returning (line 269) and the catch block unlinks it before rethrowing the
wrapped error (lines 298-302), both with the unlink failure swallowed.
The result is paired with the final temp-file state. -/
def classifyBinary (env : BinaryEnv) : Except String BinaryResponse × TmpState :=
  match env.writeImage with
  | some e =>
      (.error ("Erro na classificação binária: " ++ e), tryUnlink env.unlinkOk ⟨false⟩)
  | none =>
      match env.execStep with
      | .error e =>
          (.error ("Erro na classificação binária: " ++ e), tryUnlink env.unlinkOk ⟨true⟩)
      | .ok none =>
          (.error ("Erro na classificação binária: " ++
              ("Erro ao parsear resposta Python: " ++ env.parseErrMsg)),
           tryUnlink env.unlinkOk ⟨true⟩)
      | .ok (some result) =>
          if result.success then
            (.ok { success := true, classification := result.classification
                 , gradcam := result.gradcam, diagnosis := result.diagnosis },
             tryUnlink env.unlinkOk ⟨true⟩)
          else
            (.error ("Erro na classificação binária: " ++
                ("Classificação falhou: " ++ result.errorMessage)),
             tryUnlink env.unlinkOk ⟨true⟩)

/-- Environment in which the wrapper subprocess succeeds end to end and the
unlink of the temp file succeeds. -/
def binaryEnvOk : BinaryEnv :=
  { writeImage := none
  , execStep := .ok (some
      { success := true, errorMessage := ""
      , classification := ⟨"MALIGNO", 82⟩
      , gradcam := some "data-gradcam", diagnosis := none })
  , parseErrMsg := ""
  , unlinkOk := true }

/-! ### model.getInfo (src/server/routers.ts lines 419-470) -/

/-- One entry of the `models` object built by model.getInfo. -/
structure ModelFileEntry where
  filename : String
  sizeBytes : Nat
  recommended : Bool
deriving DecidableEq

/-- The value model.getInfo returns: the availability flag, the two
optional model entries, the optional documentation entry, and the error
message set only by the catch block. -/
structure ModelInfo where
  available : Bool
  float32 : Option ModelFileEntry
  quantized : Option ModelFileEntry
  documentation : Bool
  errorText : Option String
deriving DecidableEq

/-- Filesystem state model.getInfo inspects: size of each TFLite file when
it exists (`none` = missing), existence of the README, and an optional
injected failure standing for any throw inside the try block. -/
structure ModelFsEnv where
  float32Size : Option Nat
  quantizedSize : Option Nat
  readmeExists : Bool
  internalError : Option String
deriving DecidableEq

/-- model.getInfo (routers.ts lines 419-470): start from
`available: false`, set `available: true` (and record an entry) for each
of the float32 and quantized TFLite files that exists, record the README
when present, and let the catch block turn any internal throw into
`available: false` plus the error message — so the procedure always
returns a value and never throws. -/
def getInfo (env : ModelFsEnv) : ModelInfo :=
  match env.internalError with
  | some msg =>
      { available := false, float32 := none, quantized := none
      , documentation := false, errorText := some msg }
  | none =>
      let base : ModelInfo :=
        { available := false, float32 := none, quantized := none
        , documentation := false, errorText := none }
      let withFloat :=
        match env.float32Size with
        | some sz =>
            { base with
              float32 := some ⟨"skin_cancer_k230.tflite", sz, false⟩
            , available := true }
        | none => base
      let withQuant :=
        match env.quantizedSize with
        | some sz =>
            { withFloat with
              quantized := some ⟨"skin_cancer_k230_quantized.tflite", sz, true⟩
            , available := true }
        | none => withFloat
      if env.readmeExists then { withQuant with documentation := true } else withQuant

/-- Filesystem state with only the quantized model present. -/
def modelFsQuantOnly : ModelFsEnv :=
  { float32Size := none, quantizedSize := some 2400000
  , readmeExists := true, internalError := none }

/-! ### Incremental dataset store (documented in DOCUMENTATION.md; the
Python save_to_dataset backend is not part of the snapshot) -/

/-- The two class partitions of the incremental dataset. -/
inductive ClassLabel where
  | BENIGNO : ClassLabel
  | MALIGNO : ClassLabel
deriving DecidableEq

/-- Modelled from the spec: ContentHasher.fingerprint — the deterministic
content digest (MD5 in DOCUMENTATION.md) used for dedup; modelled as the
identity on the byte string, a collision-free abstraction of the hash. -/
def fingerprint (imageBytes : List Nat) : List Nat := imageBytes

/-- One stored image record: its content digest and its class partition. -/
structure StoredImage where
  contentHash : List Nat
  classLabel : ClassLabel
deriving DecidableEq

/-- The dataset state the ingest operation reads and writes. -/
structure DatasetStore where
  entries : List StoredImage
  duplicatesRejected : Nat
deriving DecidableEq

/-- Rejection reasons of the ingest operation. -/
inductive RejectReason where
  | DUPLICATE_SAME_CLASS : RejectReason
  | DUPLICATE_CROSS_CLASS : RejectReason
deriving DecidableEq

/-- The result of one ingest call. -/
structure IngestResult where
  accepted : Bool
  reason : Option RejectReason
deriving DecidableEq

/-- Whether a digest is already stored under the given class. -/
def hasHashInClass (s : DatasetStore) (d : List Nat) (c : ClassLabel) : Bool :=
  s.entries.any (fun img => decide (img.contentHash = d ∧ img.classLabel = c))

/-- Whether a digest is already stored under any class. -/
def hasHash (s : DatasetStore) (d : List Nat) : Bool :=
  s.entries.any (fun img => decide (img.contentHash = d))

/-- Modelled from the spec: DatasetStore.ingest — compute the fingerprint;
reject with DUPLICATE_SAME_CLASS when the digest already exists in the
same class and with DUPLICATE_CROSS_CLASS when it exists in the opposite
class; otherwise record a StoredImage and accept.  (DOCUMENTATION.md:
"Hash MD5 calculado para cada imagem; comparação com hashes existentes;
salvamento bloqueado se duplicata detectada"; the Python backend itself is
missing from the snapshot.) -/
def ingest (s : DatasetStore) (imageBytes : List Nat) (c : ClassLabel) :
    IngestResult × DatasetStore :=
  let d := fingerprint imageBytes
  if hasHashInClass s d c then
    ({ accepted := false, reason := some .DUPLICATE_SAME_CLASS },
     { s with duplicatesRejected := s.duplicatesRejected + 1 })
  else if hasHash s d then
    ({ accepted := false, reason := some .DUPLICATE_CROSS_CLASS },
     { s with duplicatesRejected := s.duplicatesRejected + 1 })
  else
    ({ accepted := true, reason := none },
     { s with entries := ⟨d, c⟩ :: s.entries })

/-! ### Router surface and subprocess timeouts (src/server/routers.ts) -/

/-- The top-level routers appRouter defines (routers.ts lines 15-526). -/
def appRouterTopLevel : List String :=
  ["system", "auth", "contact", "chat", "skinClassifier", "model"]

/-- The procedures appRouter defines, as router.procedure paths
(routers.ts lines 15-526; the nested system router adds only paths under
"system"). -/
def appRouterProcedures : List String :=
  ["auth.me", "auth.logout", "contact.submit", "chat.sendMessage",
   "chat.saveConversation", "chat.getHistory",
   "skinClassifier.classifyBinary", "skinClassifier.classify",
   "model.getInfo", "model.download"]

/-- The tRPC procedures the admin dataset client invokes
(AdminDataset.tsx lines 37 and 42, ResetDatasetModal, DatasetUploader
line 25, DatasetGallery lines 29 and 38). -/
def adminDatasetClientCalls : List String :=
  ["dataset.getStatistics", "dataset.triggerRetrain", "dataset.resetAll",
   "dataset.uploadImages", "dataset.listImages", "dataset.deleteImage"]

/-- The zod input schema of skinClassifier.classify and classifyBinary:
only the image and the diagnosis flag — no timeout field exists for the
caller to set. -/
structure ClassifyInput where
  imageBase64 : String
  generateDiagnosis : Bool
deriving DecidableEq

/-- The timeout execAsync receives in classifyBinary (routers.ts lines
237-240): the constant 300000 ms, independent of the caller's input. -/
def classifyBinaryExecTimeoutMs (_input : ClassifyInput) : Option Nat :=
  some 300000

/-- The timeout execAsync receives in classify for the inference script
(line 337), the Grad-CAM script (line 357) and the diagnosis script
(line 381): no options object is passed, so no timeout at all (Node exec
default 0 = unlimited). -/
def classifyExecTimeoutMs (_input : ClassifyInput) : Option Nat :=
  none

/-- Whether a subprocess of the given running time is killed by the given
exec timeout option. -/
def execTimesOut (timeoutMs : Option Nat) (durationMs : Nat) : Bool :=
  match timeoutMs with
  | some t => decide (t < durationMs)
  | none => false

end SkinClassifier

namespace SkinClassifier

/-! ### Theorems for claims C1, C3, C4 -/

/-- C1: retrain eligibility holds exactly when the total image count is at
least the minimum threshold 2; imbalance is the absolute difference of the
two class counts; counts A=1, B=0 are not eligible; counts A=3, B=0 are
eligible with imbalance 3; rebalancing is recommended exactly when the
imbalance exceeds 5. -/
theorem canRetrain_policy :
    (∀ t : Nat, canRetrain t = true ↔ 2 ≤ t) ∧
    (∀ a b : Nat, classImbalance a b = ((a : Int) - (b : Int)).natAbs) ∧
    canRetrain (1 + 0) = false ∧
    (canRetrain (3 + 0) = true ∧ classImbalance 3 0 = 3) ∧
    (∀ a b : Nat, isBalanced a b = false ↔ 5 < classImbalance a b) := by
  refine ⟨?_, ?_, by decide, ⟨by decide, by decide⟩, ?_⟩
  · intro t; simp [canRetrain]
  · intro a b; rfl
  · intro a b; simp [isBalanced]

/-- C3 counterexample: with both API keys failing at the transport level,
chat.sendMessage surfaces a hard error to the caller; no local fallback
narrative and no degraded flag are produced. -/
theorem sendMessage_allFail_counterexample :
    sendMessage chatEnvAllFail =
      .error "Erro ao processar sua mensagem: Erro ao comunicar com a API Gemini: 403" := by
  rfl

/-- C3 amended: whenever both the primary-key and the fallback-key fetches
report a non-success transport status, chat.sendMessage throws a hard error
wrapping the Gemini transport failure; the code has no local CNN-only
fallback and no degraded flag. -/
theorem sendMessage_allFail_hardError (env : ChatEnv)
    (h1 : env.primary.ok = false) (h2 : env.fallback.ok = false) :
    sendMessage env =
      .error (wrapChatError ("Erro ao comunicar com a API Gemini: " ++ toString env.fallback.status)) := by
  simp [sendMessage, h1, h2]

/-- C3 witness: the amended theorem instantiated at the concrete
all-providers-fail environment. -/
theorem sendMessage_allFail_hardError_witness :
    sendMessage chatEnvAllFail =
      .error (wrapChatError ("Erro ao comunicar com a API Gemini: " ++ toString chatEnvAllFail.fallback.status)) :=
  sendMessage_allFail_hardError chatEnvAllFail rfl rfl

/-- C4 counterexample: when the primary key answers with a successful
transport status but a malformed (candidate-free) payload, chat.sendMessage
throws instead of falling through to the fallback key, even though the
fallback would return a well-formed narrative. -/
theorem sendMessage_noFallthroughOnMalformed :
    sendMessage chatEnvMalformedPrimary =
      .error (wrapChatError "Formato de resposta inválido da API Gemini") := by
  rfl

/-- C4 amended: the two API keys are attempted in order, but fall-through
happens only on a non-success transport status of the primary fetch: if the
primary transport succeeds, the result is determined by the primary body
alone (a malformed or empty payload or a content rejection throws without
attempting the fallback); if the primary transport fails, the fallback
response alone determines the result. -/
theorem sendMessage_cascade (env : ChatEnv) :
    (env.primary.ok = true →
      sendMessage env =
        match handleGeminiBody env.primary.body env.save with
        | .ok r => .ok r
        | .error m => .error (wrapChatError m)) ∧
    (env.primary.ok = false → env.fallback.ok = true →
      sendMessage env =
        match handleGeminiBody env.fallback.body env.save with
        | .ok r => .ok r
        | .error m => .error (wrapChatError m)) := by
  constructor
  · intro h; simp [sendMessage, h]
  · intro h1 h2; simp [sendMessage, h1, h2]

/-- C4 witness: the cascade characterization instantiated at the concrete
malformed-primary environment: the primary transport succeeded, so the
malformed primary body alone determines the (error) result. -/
theorem sendMessage_cascade_witness :
    sendMessage chatEnvMalformedPrimary =
      match handleGeminiBody chatEnvMalformedPrimary.primary.body chatEnvMalformedPrimary.save with
      | .ok r => .ok r
      | .error m => .error (wrapChatError m) :=
  (sendMessage_cascade chatEnvMalformedPrimary).1 rfl

/-- C2 counterexample: with a successful CNN prediction but a failing
Grad-CAM subprocess, skinClassifier.classify aborts the whole request with
a hard error instead of returning the original image with a degraded
flag. -/
theorem classify_gradcamFail_counterexample :
    classify classifyEnvGradcamFails =
      .error "Erro na classificação: Command failed: python3 gradcam script" := by
  rfl

/-- C2 amended: in skinClassifier.classify, a failure of the Grad-CAM
subprocess propagates to the outer catch and aborts the whole
classification with a hard error; no degraded flag and no original-image
fallback exist at this layer. -/
theorem classify_gradcamFail_aborts (env : ClassifyEnv) (c : ClassificationData) (e : String)
    (hw : env.writeImage = none) (hc : env.classifyStep = .ok c)
    (hg : env.gradcamStep = .error e) :
    classify env = .error ("Erro na classificação: " ++ e) := by
  simp [classify, hw, hc, hg]

/-- C2 witness: the amended theorem instantiated at the concrete
failing-Grad-CAM environment. -/
theorem classify_gradcamFail_aborts_witness :
    classify classifyEnvGradcamFails =
      .error ("Erro na classificação: " ++ "Command failed: python3 gradcam script") :=
  classify_gradcamFail_aborts classifyEnvGradcamFails ⟨"MALIGNO", 82⟩
    "Command failed: python3 gradcam script" rfl rfl rfl

/-- C5 counterexample: with the CNN prediction and the Grad-CAM step both
succeeding, a rejection of the diagnosis-script writeFile (routers.ts line
378, outside the inner try at line 380) aborts the whole request with a
hard error instead of returning success with a degraded diagnosis
object. -/
theorem classify_diagnosisWriteFail_counterexample :
    classify classifyEnvDiagnosisWriteFails =
      .error "Erro na classificação: ENOSPC: no space left on device, write" := by
  rfl

/-- C5 amended: when the CNN prediction and Grad-CAM succeed, a failure of
the diagnosis subprocess or of parsing its output does not abort the
request — the response still reports success with the classification
intact, carrying the degraded diagnosis object — provided the per-request
diagnosis script file was written successfully; a rejection of that write
itself (routers.ts line 378, outside the inner try) aborts the whole
request with a hard error. -/
theorem classify_diagnosis_phase (env : ClassifyEnv) (c : ClassificationData) (g : String)
    (hw : env.writeImage = none) (hc : env.classifyStep = .ok c)
    (hg : env.gradcamStep = .ok g) (hd : env.generateDiagnosis = true) :
    (∀ e : String, env.writeDiagnosisScript = none → env.diagnosisStep = .error e →
      classify env =
        .ok { success := true, classification := c, gradcam := g
            , diagnosis := some degradedDiagnosis }) ∧
    (∀ e : String, env.writeDiagnosisScript = some e →
      classify env = .error ("Erro na classificação: " ++ e)) := by
  constructor
  · intro e hwd hf
    simp [classify, hw, hc, hg, hd, hwd, hf]
  · intro e hwd
    simp [classify, hw, hc, hg, hd, hwd]

/-- C5 witness: the amended theorem's degradation half instantiated at the
concrete environment whose diagnosis subprocess rejects after its script
was written. -/
theorem classify_diagnosis_phase_witness :
    classify classifyEnvDiagnosisFails =
      .ok { success := true, classification := ⟨"BENIGNO", 91⟩
          , gradcam := "data-gradcam-overlay", diagnosis := some degradedDiagnosis } :=
  (classify_diagnosis_phase classifyEnvDiagnosisFails ⟨"BENIGNO", 91⟩
      "data-gradcam-overlay" rfl rfl rfl rfl).1
    "Command failed: python3 diagnosis script" rfl rfl

/-- C9: on the success path and on every error path of classifyBinary the
temp file's deletion is attempted before the call returns — whenever the
unlink itself succeeds the file is gone afterwards — and the unlink
outcome never changes the call's result or error. -/
theorem classifyBinary_tempFile_cleanup (env : BinaryEnv) :
    (env.unlinkOk = true → ((classifyBinary env).2).tempFileExists = false) ∧
    (∀ b : Bool, (classifyBinary { env with unlinkOk := b }).1 = (classifyBinary env).1) := by
  constructor
  · intro h
    rcases env with ⟨w, ex, pm, u⟩
    cases h
    cases w <;> rcases ex with e | r
    · simp [classifyBinary, tryUnlink]
    · rcases r with _ | res
      · simp [classifyBinary, tryUnlink]
      · by_cases hs : res.success = true <;>
          simp [classifyBinary, tryUnlink, hs]
    · simp [classifyBinary, tryUnlink]
    · rcases r with _ | res
      · simp [classifyBinary, tryUnlink]
      · by_cases hs : res.success = true <;>
          simp [classifyBinary, tryUnlink, hs]
  · intro b
    rcases env with ⟨w, ex, pm, u⟩
    cases w <;> rcases ex with e | r
    · simp [classifyBinary]
    · rcases r with _ | res
      · simp [classifyBinary]
      · by_cases hs : res.success = true <;> simp [classifyBinary, hs]
    · simp [classifyBinary]
    · rcases r with _ | res
      · simp [classifyBinary]
      · by_cases hs : res.success = true <;> simp [classifyBinary, hs]

/-- C9 witness: the cleanup theorem instantiated at the concrete
everything-succeeds environment. -/
theorem classifyBinary_tempFile_cleanup_witness :
    ((classifyBinary binaryEnvOk).2).tempFileExists = false :=
  (classifyBinary_tempFile_cleanup binaryEnvOk).1 rfl

/-- C10: model.getInfo is a total function of the filesystem state (the
catch block turns every internal throw into a value, so it never throws);
absent an internal error its available flag is true exactly when the
float32 or the quantized TFLite file exists, and on an internal error it
returns available=false together with the captured error message. -/
theorem getInfo_availability (env : ModelFsEnv) :
    (env.internalError = none →
      (getInfo env).available = (env.float32Size.isSome || env.quantizedSize.isSome)) ∧
    (∀ msg : String, env.internalError = some msg →
      (getInfo env).available = false ∧ (getInfo env).errorText = some msg) := by
  rcases env with ⟨f, q, r, ie⟩
  constructor
  · intro h
    cases h
    cases f <;> cases q <;> cases r <;> simp [getInfo]
  · intro msg h
    cases h
    simp [getInfo]

/-- C10 witness: the availability theorem instantiated at the concrete
quantized-only filesystem state. -/
theorem getInfo_availability_witness :
    (getInfo modelFsQuantOnly).available =
      (modelFsQuantOnly.float32Size.isSome || modelFsQuantOnly.quantizedSize.isSome) :=
  (getInfo_availability modelFsQuantOnly).1 rfl

/-- C6: ingesting an image whose digest is not yet stored, then immediately
ingesting the identical bytes into the same class, yields accepted=true on
the first call and accepted=false with reason DUPLICATE_SAME_CLASS on the
second. -/
theorem ingest_duplicate_same_class (s : DatasetStore) (i : List Nat) (c : ClassLabel)
    (h : hasHash s (fingerprint i) = false) :
    ((ingest s i c).1.accepted = true) ∧
    ((ingest (ingest s i c).2 i c).1.accepted = false ∧
     (ingest (ingest s i c).2 i c).1.reason = some RejectReason.DUPLICATE_SAME_CLASS) := by
  have hclass : hasHashInClass s (fingerprint i) c = false := by
    unfold hasHashInClass
    unfold hasHash at h
    rw [List.any_eq_false] at h ⊢
    intro img hin
    have hni := h img hin
    simp only [decide_eq_true_eq] at hni ⊢
    exact fun hc => hni hc.1
  have hsecond :
      hasHashInClass { s with entries := ⟨fingerprint i, c⟩ :: s.entries } (fingerprint i) c
        = true := by
    simp [hasHashInClass]
  refine ⟨?_, ?_, ?_⟩ <;> simp [ingest, hclass, h, hsecond]

/-- The empty dataset store. -/
def emptyStore : DatasetStore := { entries := [], duplicatesRejected := 0 }

/-- C6 witness: the dedup theorem instantiated at the empty store with a
concrete image. -/
theorem ingest_duplicate_same_class_witness :
    ((ingest emptyStore [1, 2, 3] ClassLabel.BENIGNO).1.accepted = true) ∧
    ((ingest (ingest emptyStore [1, 2, 3] ClassLabel.BENIGNO).2 [1, 2, 3]
        ClassLabel.BENIGNO).1.accepted = false ∧
     (ingest (ingest emptyStore [1, 2, 3] ClassLabel.BENIGNO).2 [1, 2, 3]
        ClassLabel.BENIGNO).1.reason = some RejectReason.DUPLICATE_SAME_CLASS) :=
  ingest_duplicate_same_class emptyStore [1, 2, 3] ClassLabel.BENIGNO rfl

/-- C7: the admin dataset client invokes the dataset statistics, retrain
trigger, and full reset procedures (plus upload, list and delete), but the
server router defines none of them — appRouter has no dataset router and
no such procedure paths. -/
theorem dataset_procedures_missing :
    adminDatasetClientCalls.all (fun p => decide (p ∉ appRouterProcedures)) = true ∧
    "dataset" ∉ appRouterTopLevel ∧
    "dataset.getStatistics" ∈ adminDatasetClientCalls ∧
    "dataset.triggerRetrain" ∈ adminDatasetClientCalls ∧
    "dataset.resetAll" ∈ adminDatasetClientCalls := by
  decide

/-- C8 counterexample: the three exec calls of skinClassifier.classify run
with no timeout at all, so for a concrete request even a subprocess
running 10^8 ms is never killed and the caller receives no Timeout error
— the request blocks for as long as the subprocess runs. -/
theorem classify_noTimeout_counterexample :
    classifyExecTimeoutMs ⟨"imagem-base64", true⟩ = none ∧
    execTimesOut (classifyExecTimeoutMs ⟨"imagem-base64", true⟩) 100000000 = false :=
  ⟨rfl, rfl⟩

/-- C8 amended: only classifyBinary's wrapper subprocess runs under a
timeout, hardcoded to 300000 ms independently of the caller's input (the
input schema has no timeout field), and it is killed exactly when the
running time exceeds 300000 ms; the three subprocess invocations of
classify pass no timeout and never time out. -/
theorem exec_timeout_policy (input : ClassifyInput) :
    classifyBinaryExecTimeoutMs input = some 300000 ∧
    (∀ d : Nat, execTimesOut (classifyBinaryExecTimeoutMs input) d = decide (300000 < d)) ∧
    (∀ d : Nat, execTimesOut (classifyExecTimeoutMs input) d = false) :=
  ⟨rfl, fun _ => rfl, fun _ => rfl⟩

end SkinClassifier
